import Mathlib

/-!
# A verification model of `sump-dump`

This file gives a shallow embedding of the protocol engine of the
`sump-dump` SUMP logic-analyser client (`src/sump-dump.c`): the binary
command encoders, the device identification / extended-metadata decoding,
the capture-parameter derivation performed in `main`, the command sequence
of `capture`, and the post-capture output formatting (raw / hex / VCD).

Bytes are modelled as `Nat` (with explicit `% 2^w` wherever the C program
relies on fixed-width truncation), byte streams as `List Nat`, and the C
pointer walking over the sample buffer as an `Int` index, where a read at
a negative or too-large index yields `none` (the corresponding C access is
out of bounds).
-/

namespace SumpDump

/-! ## Command encoders (`struct cmd` constants and `cmd_*`, sump-dump.c:76-182)

A command is its byte list; `cmd->len` is the list length. -/

def cmd_reset : List Nat := [0]

def cmd_run : List Nat := [1]

def cmd_id : List Nat := [2]

def cmd_get_meta : List Nat := [4]

/-- `cmd_divider` (sump-dump.c:110): opcode 0x80, divisor little-endian in the
low three operand bytes, top byte zero. -/
def cmd_divider (div : Nat) : List Nat :=
  [0x80, div % 256, div / 2 ^ 8 % 256, div / 2 ^ 16 % 256, 0]

/-- `cmd_counts` (sump-dump.c:121): opcode 0x81, two little-endian 16-bit fields. -/
def cmd_counts (read_count delay_count : Nat) : List Nat :=
  [0x81, read_count % 256, read_count / 2 ^ 8 % 256,
    delay_count % 256, delay_count / 2 ^ 8 % 256]

/-- `cmd_flags` (sump-dump.c:131): opcode 0x82; byte 1 packs the group-disable
nibble shifted left 2 OR'd with the boolean flags; byte 2 bit 0 is rle. -/
def cmd_flags (group_disable : Nat)
    (demux filter external inverted rle : Bool) : List Nat :=
  [0x82,
    (group_disable <<< 2
      ||| (if demux then 0x01 else 0)
      ||| (if filter then 0x02 else 0)
      ||| (if external then 0x40 else 0)
      ||| (if inverted then 0x80 else 0)) % 256,
    (if rle then 0x01 else 0), 0, 0]

/-- `cmd_trig_mask` (sump-dump.c:147): opcode `0xC0 | (stage << 2)`, mask
little-endian in bytes 1-4. -/
def cmd_trig_mask (stage mask : Nat) : List Nat :=
  [(0xC0 ||| stage <<< 2) % 256, mask % 256, mask / 2 ^ 8 % 256,
    mask / 2 ^ 16 % 256, mask / 2 ^ 24 % 256]

/-- `cmd_trig_value` (sump-dump.c:158): opcode `0xC1 | (stage << 2)`, value
little-endian in bytes 1-4. -/
def cmd_trig_value (stage vals : Nat) : List Nat :=
  [(0xC1 ||| stage <<< 2) % 256, vals % 256, vals / 2 ^ 8 % 256,
    vals / 2 ^ 16 % 256, vals / 2 ^ 24 % 256]

/-- `cmd_trig_cfg` (sump-dump.c:169). -/
def cmd_trig_cfg (stage delay level channel : Nat)
    (serial start : Bool) : List Nat :=
  [(0xC2 ||| stage <<< 2) % 256, delay % 256, delay / 2 ^ 8 % 256,
    ((channel &&& 0xF) <<< 4 ||| level) % 256,
    (channel >>> 4 ||| (if serial then 0x4 else 0)
      ||| (if start then 0x8 else 0)) % 256]

/-- Little-endian decoding of a 4-byte operand (the inverse direction used by
the round-trip property of the spec). -/
def le32_decode (bs : List Nat) : Nat :=
  match bs with
  | [b1, b2, b3, b4] => b1 + b2 * 2 ^ 8 + b3 * 2 ^ 16 + b4 * 2 ^ 24
  | _ => 0

/-! ## Configuration (`struct cfg`, sump-dump.c:188-213) -/

/-- One `struct vcd_value` (sump-dump.c:202): a named signal, its selection
mask and the per-bit masks in display order. -/
structure VcdValue where
  name : String
  mask : Nat
  num_bits : Nat
  bitmasks : List Nat
deriving DecidableEq, Repr

/-- `struct cfg` (sump-dump.c:188).  All integer fields are `uint32_t` in the
source. -/
structure Cfg where
  group_enable : Nat
  trigger_mask : Nat
  trigger_value : Nat
  clk_divisor : Nat
  samples : Nat
  before_trig : Nat
  rle : Bool
  raw : Bool
  ext_meta : Bool
  clk_freq_hz : Nat
  sample_memory : Nat
  num_probes : Nat
  vcd_values : List VcdValue
  max_groups : Nat
  group_mask : Nat
  num_groups_enabled : Nat
deriving DecidableEq, Repr

/-- The initial configuration built in `main` (sump-dump.c:652-664); fields
not listed in the C initializer are zero-initialized. -/
def initCfg : Cfg :=
  { group_enable := 0
    trigger_mask := 0
    trigger_value := 0
    clk_divisor := 1
    samples := 0
    before_trig := 4
    rle := false
    raw := false
    ext_meta := false
    clk_freq_hz := 100000000
    sample_memory := 2 ^ 16
    num_probes := 32
    vcd_values := []
    max_groups := 0
    group_mask := 0
    num_groups_enabled := 0 }

def UINT32_MAX : Nat := 2 ^ 32 - 1

/-! ## Derivation of the capture parameters (`main`, sump-dump.c:726-749) -/

/-- Fuel-driven body of the group-counting loop
`for(n = group_enable & group_mask; n; n >>= 1) num_groups_enabled += 1;`
(sump-dump.c:737).  The loop runs once per right shift until the value is
zero, i.e. it computes the bit length of its argument; the fuel only makes
the recursion structural and `num_groups_loop` supplies enough of it. -/
def num_groups_loop_fuel : Nat → Nat → Nat
  | 0, _ => 0
  | fuel + 1, n => if n = 0 then 0 else num_groups_loop_fuel fuel (n / 2) + 1

/-- The value `cfg.num_groups_enabled` computed by the loop at
sump-dump.c:736-739. -/
def num_groups_loop (n : Nat) : Nat := num_groups_loop_fuel n n

/-- Population count (number of set bits); this is the quantity the spec's
derivation rule 3 prescribes for `num_groups_enabled`, stated here so it can
be compared with what the source loop computes. -/
def popCount_fuel : Nat → Nat → Nat
  | 0, _ => 0
  | fuel + 1, n => if n = 0 then 0 else n % 2 + popCount_fuel fuel (n / 2)

def popCount (n : Nat) : Nat := popCount_fuel n n

/-! The parameter derivation in `main` after `read_ident` returns
(sump-dump.c:726-749) is a chain of assignments, each reading only values
established by the earlier ones; it is modelled as one function per derived
value, composed in `main_derived`.  `after_trig = UINT32_MAX` means the
`after` option was not supplied (sump-dump.c:650). -/

/-- `cfg.max_groups = (cfg.num_probes + 7) / 8` (sump-dump.c:728). -/
def derived_max_groups (cfg : Cfg) : Nat := (cfg.num_probes + 7) / 8

/-- `cfg.group_mask = (1u << cfg.max_groups) - 1` (sump-dump.c:729). -/
def derived_group_mask (cfg : Cfg) : Nat := 2 ^ derived_max_groups cfg - 1

/-- The all-groups default for `group_enable` (sump-dump.c:732-734). -/
def derived_group_enable (cfg : Cfg) : Nat :=
  if cfg.group_enable = 0 then derived_group_mask cfg else cfg.group_enable

/-- The `num_groups_enabled` loop result (sump-dump.c:736-739), computed on
the defaulted `group_enable`. -/
def derived_nge (cfg : Cfg) : Nat :=
  num_groups_loop (derived_group_enable cfg &&& derived_group_mask cfg)

/-- The max-samples default for `samples` (sump-dump.c:742-744). -/
def derived_samples (cfg : Cfg) : Nat :=
  if cfg.samples = 0 then cfg.sample_memory / derived_nge cfg else cfg.samples

/-- The after-trigger override of `before_trig` (sump-dump.c:747-749), acting
on the defaulted `samples`. -/
def derived_before_trig (cfg : Cfg) (after_trig : Nat) : Nat :=
  if after_trig ≠ UINT32_MAX then
    derived_samples cfg - min after_trig (derived_samples cfg)
  else cfg.before_trig

/-- The configuration as it stands when `capture` is called
(sump-dump.c:726-760). -/
def main_derived (cfg : Cfg) (after_trig : Nat) : Cfg :=
  { cfg with
    max_groups := derived_max_groups cfg
    group_mask := derived_group_mask cfg
    group_enable := derived_group_enable cfg
    num_groups_enabled := derived_nge cfg
    samples := derived_samples cfg
    before_trig := derived_before_trig cfg after_trig }

/-! ## The sample buffer and the output formatters (`capture` tail and
`write_vcd`, sump-dump.c:290-374 and 441-460)

The capture buffer is a `List Nat` of `capture_samples * num_groups_enabled`
bytes.  The C code walks it with a pointer initialized to
`&buf[capture_samples * num_groups_enabled - 1]`; that pointer is modelled as
an `Int` index relative to the start of the buffer, and a dereference is
`buf_get`, which is `none` exactly when the C access is out of bounds. -/

def buf_get (buf : List Nat) (i : Int) : Option Nat :=
  if i < 0 then none else buf[i.toNat]?

/-- One line of the hex formatter (sump-dump.c:453-456): with the walking
pointer at `ptr`, byte `j` of the line is `*(ptr - (num_groups_enabled - j))`.
`none` if any byte of the line is an out-of-bounds access. -/
def hex_line_bytes (buf : List Nat) (ng : Nat) (ptr : Int) : Option (List Nat) :=
  (List.range ng).mapM fun j => buf_get buf (ptr - ((ng : Int) - (j : Int)))

/-- The hex-mode loop (sump-dump.c:447-459, `raw = false` branch): one line
per iteration, then `ptr -= num_groups_enabled`. -/
def hex_lines (buf : List Nat) (ng : Nat) : Nat → Int → List (Option (List Nat))
  | 0, _ => []
  | n + 1, ptr => hex_line_bytes buf ng ptr :: hex_lines buf ng n (ptr - (ng : Int))

/-- Hex output of the whole capture: the pointer starts at
`&buf[capture_samples * num_groups_enabled - 1]` (sump-dump.c:445), i.e. at
the index of the LAST byte of the buffer. -/
def hex_output (buf : List Nat) (num ng : Nat) : List (Option (List Nat)) :=
  hex_lines buf ng num ((num * ng : Nat) - 1 : Int)

/-- `%02X` of one byte (sump-dump.c:454): two uppercase hex digits. -/
def hex_digit (n : Nat) : Char :=
  if n < 10 then Char.ofNat (48 + n) else Char.ofNat (55 + n)

def hex_byte (b : Nat) : List Char := [hex_digit (b / 16 % 16), hex_digit (b % 16)]

/-- A rendered hex line: each byte as two uppercase hex digits, concatenated,
newline-terminated (sump-dump.c:453-456). -/
def hex_render (bs : List Nat) : List Char :=
  (bs.map hex_byte).flatten ++ [Char.ofNat 10]

/-- One chunk of the raw formatter (sump-dump.c:449-450): `fwrite(ptr -
num_groups_enabled, 1, num_groups_enabled, stdout)` writes the bytes at
indices `ptr - ng .. ptr - 1`. -/
def raw_chunk_bytes (buf : List Nat) (ng : Nat) (ptr : Int) : Option (List Nat) :=
  (List.range ng).mapM fun j => buf_get buf (ptr - (ng : Int) + (j : Int))

/-- The raw-mode loop (sump-dump.c:447-459, `raw = true` branch): the pointer
is decremented by `num_groups_enabled` once inside the branch (line 450) and
once more at the bottom of the loop (line 458), i.e. by `2 * ng` per chunk. -/
def raw_chunks (buf : List Nat) (ng : Nat) : Nat → Int → List (Option (List Nat))
  | 0, _ => []
  | n + 1, ptr => raw_chunk_bytes buf ng ptr :: raw_chunks buf ng n (ptr - (2 * ng : Nat))

/-- Raw output of the whole capture, pointer starting at the last byte's
index (sump-dump.c:445). -/
def raw_output (buf : List Nat) (num ng : Nat) : List (Option (List Nat)) :=
  raw_chunks buf ng num ((num * ng : Nat) - 1 : Int)

/-! ### Spec-side chronological view of the buffer

Per the spec's data model, the buffer holds the samples in reverse-capture
order (oldest sample last in memory): chronological sample `i` (0-based,
oldest first) is the byte chunk starting at offset
`(num - 1 - i) * num_groups_enabled`.  These definitions follow the spec's
words and are compared against what the source formatters emit. -/

def spec_sample (buf : List Nat) (num ng i : Nat) : List Nat :=
  (buf.drop ((num - 1 - i) * ng)).take ng

/-- All samples in chronological order, per the spec's words. -/
def spec_chron_samples (buf : List Nat) (num ng : Nat) : List (List Nat) :=
  (List.range num).map fun i => spec_sample buf num ng i

/-! ### VCD sample reconstruction and change detection
(`write_vcd`, sump-dump.c:345-373) -/

/-- The inner reconstruction loop (sump-dump.c:350-354): starting from 0,
for `j = 0 .. ng-1` do `cur <<= 8; cur |= *(ptr - (ng - j))`. -/
def vcd_cur (buf : List Nat) (ng : Nat) (ptr : Int) : Option Nat :=
  (List.range ng).foldl
    (fun acc j =>
      match acc, buf_get buf (ptr - ((ng : Int) - (j : Int))) with
      | some c, some b => some ((c <<< 8 ||| b) % 2 ^ 32)
      | _, _ => none)
    (some 0)

/-- The reconstructed integer for loop iteration `i`: the pointer starts at
the last byte's index (sump-dump.c:347) and moves down `ng` per iteration
(line 355). -/
def vcd_cur_at (buf : List Nat) (num ng i : Nat) : Option Nat :=
  vcd_cur buf ng (((num * ng : Nat) : Int) - 1 - (i * ng : Nat))

/-- The previous-sample integer at iteration `i` (`prev` starts at 0,
sump-dump.c:346, and is the previous iteration's `cur` afterwards). -/
def vcd_prev_at (buf : List Nat) (num ng i : Nat) : Option Nat :=
  if i = 0 then some 0 else vcd_cur_at buf num ng (i - 1)

/-- Whether the code emits a state line for a value with selection mask
`mask` at loop iteration `i` (sump-dump.c:358-362): emitted iff `i` is the
final index or `(prev ^ cur) & mask` is non-zero; `none` when the iteration
reads out of bounds. -/
def vcd_emit (buf : List Nat) (num ng mask i : Nat) : Option Bool :=
  match vcd_prev_at buf num ng i, vcd_cur_at buf num ng i with
  | some p, some c => some (decide (i = num - 1) || decide ((p ^^^ c) &&& mask ≠ 0))
  | _, _ => none

/-- Spec-side reconstruction of chronological sample `i` as a single integer
(group bytes concatenated most-significant group first), following the
spec's words. -/
def spec_cur (buf : List Nat) (num ng i : Nat) : Nat :=
  (spec_sample buf num ng i).foldl (fun acc b => acc <<< 8 ||| b) 0

/-- Spec-side emission predicate: a value's state line appears at
chronological index `i` iff its mask overlaps `prev XOR cur` or `i` is the
final index. -/
def spec_emit (buf : List Nat) (num ng mask i : Nat) : Bool :=
  decide (i = num - 1)
    || decide (((if i = 0 then 0 else spec_cur buf num ng (i - 1))
        ^^^ spec_cur buf num ng i) &&& mask ≠ 0)

/-! ## Device identification and extended metadata (`read_ident`,
sump-dump.c:215-288)

The transport is modelled as the `List Nat` of bytes the device will send;
reading past its end corresponds to the C program blocking forever in
`read_tty`, rendered as `none`. -/

/-- Net stream consumption of the kind-0 (string) metadata entry
(sump-dump.c:244-260): bytes are read one at a time until a NUL; the
truncation path (more than 256 bytes before the NUL) still drains up to and
including the first NUL, so in every case exactly the bytes up to and
including the first 0 are consumed. `none` when the stream has no 0 left. -/
def drop_meta_string : List Nat → Option (List Nat)
  | [] => none
  | b :: rest => if b = 0 then some rest else drop_meta_string rest

/-- The 32-bit assembly of a kind-1 metadata payload exactly as written at
sump-dump.c:265: `valb[3] | (valb[2] << 8) | (valb[1] << 16) | (valb[2] << 24)`
(note: `valb[0]` is not used and `valb[2]` appears twice). -/
def meta_u32 (b0 b1 b2 b3 : Nat) : Nat :=
  (b3 ||| b2 <<< 8 ||| b1 <<< 16 ||| b2 <<< 24) % 2 ^ 32

/-- Big-endian assembly of the 4 payload bytes, first byte most significant;
this is what the spec prescribes for kind-1 entries, stated for comparison
with `meta_u32`. -/
def meta_u32_be (b0 b1 b2 b3 : Nat) : Nat :=
  (b0 <<< 24 ||| b1 <<< 16 ||| b2 <<< 8 ||| b3) % 2 ^ 32

/-- The metadata decoding loop (sump-dump.c:236-287), fuel-driven to keep the
recursion structural (each iteration consumes at least the tag byte, so
`input.length + 1` fuel always suffices).  Dispatch on `tag >> 5`: kind 0
skips a NUL-terminated string, kind 1 reads 4 bytes, assembles them with
`meta_u32` and stores field ids 0/1/3 into `num_probes` / `sample_memory` /
`clk_freq_hz`, kind 2 reads one byte; a 0 tag terminates; any other kind
returns early (non-fatally).  Returns the updated configuration and the
unconsumed stream. -/
def read_meta_loop : Nat → Cfg → List Nat → Option (Cfg × List Nat)
  | 0, _, _ => none
  | _ + 1, _, [] => none
  | fuel + 1, cfg, tag :: rest =>
    if tag = 0 then some (cfg, rest)
    else if tag / 32 = 0 then
      match drop_meta_string rest with
      | none => none
      | some rest2 => read_meta_loop fuel cfg rest2
    else if tag / 32 = 1 then
      match rest with
      | b0 :: b1 :: b2 :: b3 :: rest2 =>
        let val := meta_u32 b0 b1 b2 b3
        let cfg2 :=
          if tag % 32 = 0 then { cfg with num_probes := val }
          else if tag % 32 = 1 then { cfg with sample_memory := val }
          else if tag % 32 = 3 then { cfg with clk_freq_hz := val }
          else cfg
        read_meta_loop fuel cfg2 rest2
      | _ => none
    else if tag / 32 = 2 then
      match rest with
      | _ :: rest2 => read_meta_loop fuel cfg rest2
      | [] => none
    else some (cfg, rest)

def read_meta (cfg : Cfg) (input : List Nat) : Option (Cfg × List Nat) :=
  read_meta_loop (input.length + 1) cfg input

/-- The expected ident response, the ASCII bytes of `"1ALS"`
(sump-dump.c:224). -/
def ident_lit : List Nat := [0x31, 0x41, 0x4C, 0x53]

/-- The commands `read_ident` writes before checking the ident: five resets
then identify (sump-dump.c:218-221). -/
def ident_writes : List (List Nat) :=
  [cmd_reset, cmd_reset, cmd_reset, cmd_reset, cmd_reset, cmd_id]

/-- What a run of `read_ident` did on the wire: the commands written, in
order, and how many bytes were read from the device. -/
structure IdentTrace where
  writes : List (List Nat)
  reads : Nat
deriving DecidableEq, Repr

/-- Result of `read_ident`: `fatal` models `exit(EXIT_FAILURE)` at
sump-dump.c:226, `ok` carries the (possibly metadata-updated)
configuration. -/
inductive SessionResult where
  | fatal : SessionResult
  | ok : Cfg → SessionResult
deriving DecidableEq, Repr

/-- `read_ident` (sump-dump.c:215-288): write five resets and identify, read
4 bytes, exit fatally unless they are `"1ALS"`; then, only when `ext_meta` is
set, write get-metadata (0x04) and run the decoding loop.  `none` models
blocking forever on a short stream. -/
def read_ident (cfg : Cfg) (input : List Nat) : Option (IdentTrace × SessionResult) :=
  if 4 ≤ input.length then
    if input.take 4 ≠ ident_lit then
      some ({ writes := ident_writes, reads := 4 }, SessionResult.fatal)
    else if cfg.ext_meta = false then
      some ({ writes := ident_writes, reads := 4 }, SessionResult.ok cfg)
    else
      match read_meta cfg (input.drop 4) with
      | none => none
      | some (cfg2, rest) =>
        some ({ writes := ident_writes ++ [cmd_get_meta],
                reads := 4 + ((input.drop 4).length - rest.length) },
          SessionResult.ok cfg2)
  else none

/-! ## Command-line option processing (`main`, sump-dump.c:666-714)

Each recognised option, with its already-tokenized operand values, is one
constructor; `apply_opt` is the effect of the corresponding branch of the
dispatch chain on the configuration and on the `after_trig` local.  Branches
that call `argerr` (unknown argument, malformed operand, too many VCD
values) terminate the process before any device interaction and are not
modelled. -/

inductive Opt where
  | groups : Nat → Opt
  | trigger : Nat → Nat → Opt
  | divisor : Nat → Opt
  | samples : Nat → Opt
  | before : Nat → Opt
  | after : Nat → Opt
  | rle : Opt
  | raw : Opt
  | clk_freq : Nat → Opt
  | sample_memory : Nat → Opt
  | num_probes : Nat → Opt
  | extmeta : Opt
  | vcd : VcdValue → Opt
deriving DecidableEq, Repr

/-- One iteration of the option loop (sump-dump.c:666-714) acting on
`(cfg, after_trig)`.  Note the `extmeta` branch (sump-dump.c:701-703)
assigns `false`, exactly as the source does. -/
def apply_opt : Cfg × Nat → Opt → Cfg × Nat
  | (cfg, aft), Opt.groups n => ({ cfg with group_enable := n }, aft)
  | (cfg, aft), Opt.trigger m v => ({ cfg with trigger_mask := m, trigger_value := v }, aft)
  | (cfg, aft), Opt.divisor n => ({ cfg with clk_divisor := n }, aft)
  | (cfg, aft), Opt.samples n => ({ cfg with samples := n }, aft)
  | (cfg, aft), Opt.before n => ({ cfg with before_trig := n }, aft)
  | (cfg, _), Opt.after n => (cfg, n)
  | (cfg, aft), Opt.rle => ({ cfg with rle := true }, aft)
  | (cfg, aft), Opt.raw => ({ cfg with raw := true }, aft)
  | (cfg, aft), Opt.clk_freq n => ({ cfg with clk_freq_hz := n }, aft)
  | (cfg, aft), Opt.sample_memory n => ({ cfg with sample_memory := n }, aft)
  | (cfg, aft), Opt.num_probes n => ({ cfg with num_probes := n }, aft)
  | (cfg, aft), Opt.extmeta => ({ cfg with ext_meta := false }, aft)
  | (cfg, aft), Opt.vcd vv => ({ cfg with vcd_values := cfg.vcd_values ++ [vv] }, aft)

/-- The whole option loop over the command line, starting from the
initializer of sump-dump.c:652-664 and `after_trig = UINT32_MAX`
(sump-dump.c:650). -/
def parse_opts (opts : List Opt) : Cfg × Nat :=
  opts.foldl apply_opt (initCfg, UINT32_MAX)

/-! ## The capture command sequence (`capture`, sump-dump.c:376-435) -/

/-- `max_samples` (sump-dump.c:418). -/
def max_samples (cfg : Cfg) : Nat := cfg.sample_memory / cfg.num_groups_enabled

/-- The clamped `capture_samples` (sump-dump.c:419-423). -/
def capture_samples (cfg : Cfg) : Nat := min cfg.samples (max_samples cfg)

/-- The clamped `before_samples` (sump-dump.c:424-428). -/
def before_samples (cfg : Cfg) : Nat := min cfg.before_trig (capture_samples cfg)

/-- All commands `capture` writes, in order (sump-dump.c:380-435): five
resets, divider (with the uint32 wrap of `clk_divisor - 1`), the trigger
stage commands (stage 0 only when no trigger is requested, otherwise stage 0
with the user mask/value followed by pass-through stages 1-3 with level 3),
the counts, the flags (`group_disable = ~group_enable & group_mask`), and
run. -/
def capture_writes (cfg : Cfg) : List (List Nat) :=
  let group_dis := (cfg.group_enable ^^^ UINT32_MAX) &&& cfg.group_mask
  [cmd_reset, cmd_reset, cmd_reset, cmd_reset, cmd_reset]
  ++ [cmd_divider ((cfg.clk_divisor + UINT32_MAX) % 2 ^ 32)]
  ++ (if cfg.trigger_mask = 0 then
        [cmd_trig_mask 0 0, cmd_trig_value 0 0, cmd_trig_cfg 0 0 0 0 false true]
      else
        [cmd_trig_mask 0 cfg.trigger_mask, cmd_trig_value 0 cfg.trigger_value,
          cmd_trig_cfg 0 0 0 0 false true,
          cmd_trig_mask 1 0, cmd_trig_value 1 0, cmd_trig_cfg 1 0 3 0 false false,
          cmd_trig_mask 2 0, cmd_trig_value 2 0, cmd_trig_cfg 2 0 3 0 false false,
          cmd_trig_mask 3 0, cmd_trig_value 3 0, cmd_trig_cfg 3 0 3 0 false false])
  ++ [cmd_counts (capture_samples cfg / 4) ((capture_samples cfg - before_samples cfg) / 4)]
  ++ [cmd_flags group_dis false false false false cfg.rle]
  ++ [cmd_run]

/-! ## VCD time-scale inference (`write_vcd`, sump-dump.c:307-334)

The C computation is on `double`s; it is modelled over `ℚ` (every quantity
involved at the claims' inputs is far from the comparison threshold, so
rounding cannot change any branch).  The while loop is fuel-driven; `none`
models non-termination of the loop within the given fuel. -/

def vcd_time_loop (divisor freq : ℚ) : Nat → Nat → Option Nat
  | 0, _ => none
  | fuel + 1, ntens =>
    if divisor * 10 ^ ntens / freq < 100 then vcd_time_loop divisor freq fuel (ntens + 1)
    else some ntens

/-- The number of ×10 steps applied by the loop at sump-dump.c:317-320
(`time_scale = 10 ^ ntens`). -/
def vcd_ntens (divisor freq : ℚ) (fuel : Nat) : Option Nat :=
  vcd_time_loop divisor freq fuel 0

/-- `units[]` (sump-dump.c:307); the timescale unit is `units[ntens / 3]`. -/
def vcd_units : List String := ["s", "ms", "us", "ns", "ps", "fs"]

/-- `tens[]` (sump-dump.c:308); the timescale multiplier is
`tens[ntens % 3]`. -/
def vcd_tens : List Nat := [1, 10, 100]

/-! ## Helper lemmas -/

/-- The group-counting loop yields a positive count on any non-zero input
(it runs at least one iteration). -/
theorem num_groups_loop_pos (n : Nat) (h : n ≠ 0) : 1 ≤ num_groups_loop n := by
  match n with
  | m + 1 => simp [num_groups_loop, num_groups_loop_fuel]

/-- Every branch of the option dispatch leaves `ext_meta` false if it was
false (the `extmeta` branch assigns `false` outright). -/
theorem foldl_ext_meta (opts : List Opt) :
    ∀ p : Cfg × Nat, p.1.ext_meta = false → (opts.foldl apply_opt p).1.ext_meta = false := by
  induction opts with
  | nil => intro p h; exact h
  | cons o rest ih =>
    intro p h
    obtain ⟨c, a⟩ := p
    refine ih _ ?_
    cases o <;> simp [apply_opt] <;> exact h

/-- Soundness of the time-scale while loop: a returned step count satisfies
the loop's exit condition and is the least count from the start value to do
so. -/
theorem vcd_time_loop_sound (d f : ℚ) :
    ∀ fuel k n, vcd_time_loop d f fuel k = some n →
      k ≤ n ∧ ¬ d * 10 ^ n / f < 100 ∧ ∀ m, k ≤ m → m < n → d * 10 ^ m / f < 100 := by
  intro fuel
  induction fuel with
  | zero => intro k n h; simp [vcd_time_loop] at h
  | succ fuel ih =>
    intro k n h
    rw [vcd_time_loop] at h
    split at h
    · rename_i hc
      obtain ⟨h1, h2, h3⟩ := ih (k + 1) n h
      refine ⟨by omega, h2, fun m hk hm => ?_⟩
      rcases Nat.eq_or_lt_of_le hk with heq | hlt
      · exact heq ▸ hc
      · exact h3 m hlt hm
    · rename_i hc
      cases h
      exact ⟨le_refl _, hc, fun m hk hm => absurd (lt_of_le_of_lt hk hm) (lt_irrefl _)⟩

/-! ## The claims -/

/-- Claim C1.  The claim states that after device identification the derived
`num_groups_enabled` equals the population count of
`group_enable & group_mask`.  The source loop (sump-dump.c:737) instead
counts one per right shift until the value is zero, i.e. the bit length: at
`group_enable = 5` (groups 0 and 2 of the default 0xF mask) the code derives
3 while the population count is 2. -/
theorem C1_num_groups_enabled_is_bit_length :
    (main_derived { initCfg with group_enable := 5 } UINT32_MAX).num_groups_enabled = 3
    ∧ popCount ((main_derived { initCfg with group_enable := 5 } UINT32_MAX).group_enable
        &&& (main_derived { initCfg with group_enable := 5 } UINT32_MAX).group_mask) = 2
    ∧ (3 : Nat) ≠ 2 := by decide

/-- Claim C2.  The claim states hex mode prints, per chronological sample,
that sample's group bytes as uppercase hex.  On the 2-sample, 1-group buffer
`[0xAB, 0xCD]` (chronological samples `CD` then `AB`) the code's first line
holds `0xAB` — the newest sample, because its pointer starts at the last
byte's index and reads `ptr-ng .. ptr-1` — and its second line dereferences
index -1, out of bounds; the 3-sample, 2-group buffer shows the lines
shifted one byte across the stored chunk boundaries.  Rendering itself (two
uppercase hex digits per byte, newline-terminated) matches the claim. -/
theorem C2_hex_mode_off_by_one :
    (hex_output [0xAB, 0xCD] 2 1).length = 2
    ∧ hex_output [0xAB, 0xCD] 2 1 = [some [0xAB], none]
    ∧ spec_chron_samples [0xAB, 0xCD] 2 1 = [[0xCD], [0xAB]]
    ∧ hex_output [0xAB, 0xCD] 2 1 ≠ (spec_chron_samples [0xAB, 0xCD] 2 1).map some
    ∧ hex_output [1, 2, 3, 4, 5, 6] 3 2 = [some [4, 5], some [2, 3], none]
    ∧ spec_chron_samples [1, 2, 3, 4, 5, 6] 3 2 = [[5, 6], [3, 4], [1, 2]]
    ∧ hex_render [0xAB] = ['A', 'B', Char.ofNat 10] := by decide

/-- Claim C3.  The claim states raw mode writes every captured sample's
bytes exactly once in chronological order.  The code decrements its walking
pointer twice per iteration (sump-dump.c:450 and 458), so on the 4-sample
buffer `[1, 2, 3, 4]` it writes the chunks at indices 2 and 0 (samples never
include the oldest or every other one), then reads out of bounds; samples
`[4]` and `[2]` are never written. -/
theorem C3_raw_mode_skips_samples :
    raw_output [0xAB, 0xCD] 2 1 = [some [0xAB], none]
    ∧ spec_sample [0xAB, 0xCD] 2 1 0 = [0xCD]
    ∧ some [0xCD] ∉ raw_output [0xAB, 0xCD] 2 1
    ∧ raw_output [1, 2, 3, 4] 4 1 = [some [3], some [1], none, none]
    ∧ spec_chron_samples [1, 2, 3, 4] 4 1 = [[4], [3], [2], [1]]
    ∧ some [4] ∉ raw_output [1, 2, 3, 4] 4 1
    ∧ some [2] ∉ raw_output [1, 2, 3, 4] 4 1 := by decide

/-- Claim C4.  The claim's concrete instance: 2 samples, chronological
sample 0 = 0b01 (stored last) and sample 1 = 0b11, a single-bit value masked
to bit 1; the claim requires no change line at index 0 and one at index 1.
Because the sample reconstruction starts its pointer at the buffer's last
byte's index (sump-dump.c:347) and reads `ptr-ng .. ptr-1`, the integer
reconstructed at loop index 0 is 0b11 (the newest sample), so `prev ^ cur`
overlaps mask 0b10 and a change line IS emitted at index 0, and the read at
the final index is out of bounds.  The spec-side reconstruction
(`spec_cur` / `spec_emit`) agrees with the claim. -/
theorem C4_vcd_change_detection_misaligned :
    vcd_emit [3, 1] 2 1 2 0 = some true
    ∧ spec_emit [3, 1] 2 1 2 0 = false
    ∧ spec_emit [3, 1] 2 1 2 1 = true
    ∧ spec_cur [3, 1] 2 1 0 = 1
    ∧ spec_cur [3, 1] 2 1 1 = 3
    ∧ vcd_cur_at [3, 1] 2 1 0 = some 3
    ∧ vcd_cur_at [3, 1] 2 1 1 = none := by decide

/-- Claim C5, counterexample.  At `clk_freq_hz = 100000000, clk_divisor =
11` the loop applies 9 ×10 steps, so the rendered multiplier is
`tens[9 mod 3] = tens[0] = 1`, not 100 as the claim's concrete instance
asserts (the unit `ns` is as claimed). -/
theorem C5_multiplier_is_one_not_100 :
    vcd_ntens 11 (10 ^ 8) 20 = some 9
    ∧ vcd_tens.getD (9 % 3) 0 = 1
    ∧ vcd_units.getD (9 / 3) "" = "ns"
    ∧ vcd_tens.getD (9 % 3) 0 ≠ 100 := by
  refine ⟨by norm_num [vcd_ntens, vcd_time_loop], rfl, rfl, by decide⟩

/-- Claim C5, amended.  The loop applies the smallest number of successive
×10 steps making `divisor * scale / freq >= 100`, the multiplier is
`tens[ntens mod 3]` and the unit `units[ntens div 3]`; at `clk_freq_hz =
100000000, clk_divisor = 11` it applies 9 steps, `period * scale = 110 ∈
[100, 1000)`, and the rendered timescale is `1ns` (multiplier 1, unit
`ns`). -/
theorem C5_time_scale_inference_amended :
    (∀ (d f : ℚ) (fuel n : Nat), vcd_ntens d f fuel = some n →
      ¬ d * 10 ^ n / f < 100 ∧ ∀ m : Nat, m < n → d * 10 ^ m / f < 100)
    ∧ vcd_ntens 11 (10 ^ 8) 20 = some 9
    ∧ (11 : ℚ) * 10 ^ 9 / 10 ^ 8 = 110
    ∧ (100 : ℚ) ≤ 110 ∧ (110 : ℚ) < 1000
    ∧ vcd_units.getD (9 / 3) "" = "ns"
    ∧ vcd_tens.getD (9 % 3) 0 = 1 := by
  refine ⟨?_, by norm_num [vcd_ntens, vcd_time_loop], by norm_num, by norm_num, by norm_num,
    rfl, rfl⟩
  intro d f fuel n h
  obtain ⟨h1, h2, h3⟩ := vcd_time_loop_sound d f fuel 0 n h
  exact ⟨h2, fun m hm => h3 m (Nat.zero_le m) hm⟩

/-- Claim C5, amended, applied to the concrete input: 9 steps are minimal
for divisor 11 and clock 10^8. -/
theorem C5_time_scale_inference_amended_witness :
    ¬ (11 : ℚ) * 10 ^ 9 / 10 ^ 8 < 100 :=
  (C5_time_scale_inference_amended.1 11 (10 ^ 8) 20 9
    C5_time_scale_inference_amended.2.1).1

/-- Claim C6.  The claim states kind-1 metadata payloads are assembled
big-endian, first payload byte most significant.  The source expression
(sump-dump.c:265) never reads `valb[0]` and uses `valb[2]` for both byte 1
and byte 3 of the result: on payload `[0x01, 0x02, 0x03, 0x04]` it yields
0x03020304 instead of the big-endian 0x01020304.  The claim's concrete
stream `[0x20, 0x00, 0x00, 0x00, 0x20, 0x00]` does set `num_probes` to 32
and halt at the zero tag (its payload has `valb[0] = valb[2] = 0`, hiding
the divergence). -/
theorem C6_meta_u32_uses_byte2_twice :
    read_meta initCfg [0x20, 0x00, 0x00, 0x00, 0x20, 0x00]
      = some ({ initCfg with num_probes := 32 }, [])
    ∧ read_meta initCfg [0x20, 0x01, 0x02, 0x03, 0x04, 0x00]
      = some ({ initCfg with num_probes := 0x03020304 }, [])
    ∧ meta_u32 0x01 0x02 0x03 0x04 = 0x03020304
    ∧ meta_u32_be 0x01 0x02 0x03 0x04 = 0x01020304
    ∧ meta_u32 0x01 0x02 0x03 0x04 ≠ meta_u32_be 0x01 0x02 0x03 0x04 := by decide

/-- Claim C7.  The identification step writes five resets then identify and
reads exactly 4 bytes; the session fails fatally if and only if those bytes
differ from the ASCII literal `"1ALS"`, and on failure the trace is exactly
those six commands and four reads — no further device interaction. -/
theorem C7_ident_check (cfg : Cfg) (input : List Nat) (h : 4 ≤ input.length) :
    ((∃ t, read_ident cfg input = some (t, SessionResult.fatal)) ↔ input.take 4 ≠ ident_lit)
    ∧ (input.take 4 ≠ ident_lit →
        read_ident cfg input
          = some ({ writes := ident_writes, reads := 4 }, SessionResult.fatal))
    ∧ (∀ t r, read_ident cfg input = some (t, r) →
        t.writes.take 6 = ident_writes ∧ 4 ≤ t.reads) := by
  refine ⟨⟨?_, ?_⟩, ?_, ?_⟩
  · rintro ⟨t, ht⟩
    intro heq
    unfold read_ident at ht
    rw [if_pos h, if_neg (by simpa using heq)] at ht
    split at ht
    · simp at ht
    · split at ht
      · exact Option.noConfusion ht
      · simp at ht
  · intro hne
    exact ⟨_, by unfold read_ident; rw [if_pos h, if_pos hne]⟩
  · intro hne
    unfold read_ident
    rw [if_pos h, if_pos hne]
  · intro t r htr
    unfold read_ident at htr
    rw [if_pos h] at htr
    split at htr
    · obtain ⟨rfl, rfl⟩ := Prod.mk.inj (Option.some.inj htr)
      exact ⟨rfl, le_refl 4⟩
    · split at htr
      · obtain ⟨rfl, rfl⟩ := Prod.mk.inj (Option.some.inj htr)
        exact ⟨rfl, le_refl 4⟩
      · split at htr
        · exact Option.noConfusion htr
        · obtain ⟨rfl, rfl⟩ := Prod.mk.inj (Option.some.inj htr)
          exact ⟨rfl, Nat.le_add_right 4 _⟩

/-- Claim C7 at a concrete input: a device answering `[9, 9, 9, 9]` is
rejected with exactly the six identification commands written and four
bytes read. -/
theorem C7_ident_check_witness :
    read_ident initCfg [9, 9, 9, 9]
      = some ({ writes := ident_writes, reads := 4 }, SessionResult.fatal) :=
  (C7_ident_check initCfg [9, 9, 9, 9] (by decide)).2.1 (by decide)

/-- Claim C8.  For every stage 0-3 and 32-bit mask, the trigger-mask frame
is 5 bytes, its opcode is `0xC0 | (stage << 2)`, and its bytes 1-4 decode
little-endian back to the mask. -/
theorem C8_trig_mask_round_trip (stage mask : Nat) (hs : stage ≤ 3) (hm : mask < 2 ^ 32) :
    (cmd_trig_mask stage mask).length = 5
    ∧ (cmd_trig_mask stage mask).getD 0 0 = 0xC0 ||| stage <<< 2
    ∧ le32_decode ((cmd_trig_mask stage mask).drop 1) = mask := by
  refine ⟨rfl, ?_, ?_⟩
  · interval_cases stage <;> simp [cmd_trig_mask]
  · simp only [cmd_trig_mask, List.drop, le32_decode]
    omega

/-- Claim C8 at a concrete input: stage 2, mask 0xDEADBEEF. -/
theorem C8_trig_mask_round_trip_witness :
    (cmd_trig_mask 2 0xDEADBEEF).length = 5
    ∧ (cmd_trig_mask 2 0xDEADBEEF).getD 0 0 = 0xC0 ||| 2 <<< 2
    ∧ le32_decode ((cmd_trig_mask 2 0xDEADBEEF).drop 1) = 0xDEADBEEF :=
  C8_trig_mask_round_trip 2 0xDEADBEEF (by decide) (by decide)

/-- Claim C9.  The `extmeta` option branch assigns `false`
(sump-dump.c:702), so `ext_meta` is false after processing any command
line; with `ext_meta` false, `read_ident` writes exactly the five resets
and identify — in particular never the get-metadata command 0x04 — and the
metadata decoding loop is never entered; the capture phase never writes
0x04 either. -/
theorem C9_extmeta_flag_is_noop :
    (∀ opts : List Opt, (parse_opts opts).1.ext_meta = false)
    ∧ (∀ (opts : List Opt) (input : List Nat) (t : IdentTrace) (r : SessionResult),
        read_ident (parse_opts opts).1 input = some (t, r) →
          t.writes = ident_writes ∧ cmd_get_meta ∉ t.writes)
    ∧ (∀ cfg : Cfg, cmd_get_meta ∉ capture_writes cfg) := by
  have hparse : ∀ opts : List Opt, (parse_opts opts).1.ext_meta = false := fun opts =>
    foldl_ext_meta opts (initCfg, UINT32_MAX) rfl
  refine ⟨hparse, ?_, ?_⟩
  · intro opts input t r htr
    unfold read_ident at htr
    rw [hparse opts] at htr
    split at htr
    · split at htr
      · obtain ⟨rfl, rfl⟩ := Prod.mk.inj (Option.some.inj htr)
        exact ⟨rfl, by decide⟩
      · obtain ⟨rfl, rfl⟩ := Prod.mk.inj (Option.some.inj htr)
        exact ⟨rfl, by decide⟩
    · exact Option.noConfusion htr
  · intro cfg hmem
    by_cases htm : cfg.trigger_mask = 0 <;>
      simp [capture_writes, htm, cmd_get_meta, cmd_reset, cmd_run, cmd_divider, cmd_counts,
        cmd_flags, cmd_trig_mask, cmd_trig_value, cmd_trig_cfg] at hmem

/-- Claim C9 at a concrete input: a command line consisting of the `extmeta`
option leaves `ext_meta` false. -/
theorem C9_extmeta_flag_is_noop_witness :
    (parse_opts [Opt.extmeta]).1.ext_meta = false :=
  C9_extmeta_flag_is_noop.1 [Opt.extmeta]

/-- Claim C10, counterexample.  The claim asserts `num_groups_enabled >= 1`
whenever the configured probe count is at least 1; but with the default 32
probes (mask 0xF) and a user-supplied `group_enable = 0x10` that shares no
bit with the mask, the derived `num_groups_enabled` is 0 and the
default-sample-count division divides by zero anyway. -/
theorem C10_nge_zero_counterexample :
    1 ≤ ({ initCfg with group_enable := 16 } : Cfg).num_probes
    ∧ (main_derived { initCfg with group_enable := 16 } UINT32_MAX).num_groups_enabled = 0
    ∧ ¬ 1 ≤ (main_derived { initCfg with group_enable := 16 } UINT32_MAX).num_groups_enabled := by
  decide

/-- Claim C10, amended.  Whenever the configured probe count is at least 1
(and at most 248, so that the 32-bit `group_mask` shift is well defined) AND
the user-supplied group-enable mask is either 0 (so it defaults to the full
`group_mask`) or shares at least one bit with `group_mask`, the derived
`num_groups_enabled` is at least 1, so the `sample_memory /
num_groups_enabled` divisions are well-defined; if `num_probes = 0` then
`group_mask = 0` and `num_groups_enabled = 0`, making the divisor of the
default-sample-count division zero. -/
theorem C10_nge_positivity_amended :
    (∀ (cfg : Cfg) (aft : Nat), 1 ≤ cfg.num_probes → cfg.num_probes ≤ 248 →
      (cfg.group_enable = 0
        ∨ cfg.group_enable &&& (2 ^ ((cfg.num_probes + 7) / 8) - 1) ≠ 0) →
      1 ≤ (main_derived cfg aft).num_groups_enabled)
    ∧ (∀ (cfg : Cfg) (aft : Nat), cfg.num_probes = 0 →
      (main_derived cfg aft).group_mask = 0
        ∧ (main_derived cfg aft).num_groups_enabled = 0) := by
  constructor
  · intro cfg aft h1 h248 hor
    have hnge : (main_derived cfg aft).num_groups_enabled = derived_nge cfg := rfl
    rw [hnge]
    unfold derived_nge derived_group_enable derived_group_mask derived_max_groups
    have hmg : 1 ≤ (cfg.num_probes + 7) / 8 := by omega
    have hgm : 2 ^ ((cfg.num_probes + 7) / 8) - 1 ≠ 0 := by
      have h2 : 2 ^ 1 ≤ 2 ^ ((cfg.num_probes + 7) / 8) := Nat.pow_le_pow_right (by omega) hmg
      omega
    rcases hor with h0 | hne
    · rw [if_pos h0, Nat.and_self]
      exact num_groups_loop_pos _ hgm
    · have h0 : ¬ cfg.group_enable = 0 := by
        intro hz
        rw [hz] at hne
        simp at hne
      rw [if_neg h0]
      exact num_groups_loop_pos _ hne
  · intro cfg aft h0
    have hgm : (main_derived cfg aft).group_mask = derived_group_mask cfg := rfl
    have hnge : (main_derived cfg aft).num_groups_enabled = derived_nge cfg := rfl
    have hzero : derived_group_mask cfg = 0 := by
      unfold derived_group_mask derived_max_groups
      rw [h0]
      decide
    refine ⟨by rw [hgm, hzero], ?_⟩
    rw [hnge]
    unfold derived_nge
    rw [hzero, Nat.and_zero]
    rfl

/-- Claim C10, amended, at a concrete input: the default configuration (32
probes, group_enable 0) derives a positive group count. -/
theorem C10_nge_positivity_amended_witness :
    1 ≤ (main_derived initCfg UINT32_MAX).num_groups_enabled :=
  C10_nge_positivity_amended.1 initCfg UINT32_MAX (by decide) (by decide) (Or.inl rfl)

end SumpDump
